import Mathlib

/-!
Verification of the portfolio persistence layer of `pacama95/portfolio_assistant`.

The development shallowly embeds the Python modules
`src/persistence/crud/portfolio_crud.py`,
`src/persistence/database/connection.py` and
`src/mcp_persistence/server/portfolio_operations.py`.

Conventions of the embedding:
* SQL `NUMERIC` / Python `Decimal` values are rationals (`ℚ`); all the
  arithmetic performed by the embedded code is exact on decimals, so `ℚ`
  represents it faithfully.
* SQL `NULL` / Python `None` is `Option`.
* Python exceptions are `Except String`: a raised exception is `.error msg`.
* Timestamps (`created_at`, `updated_at`, `CURRENT_TIMESTAMP`) are modelled by
  a logical clock (`ℕ`) carried in the store state; the source never uses
  their actual values in business logic.
* Database identifiers (UUIDs in the source) are modelled as `ℕ` drawn from a
  counter; the source only ever compares them for equality.
-/

namespace Portfolio

/-- SQL `NUMERIC` / Python `Decimal` values. -/
abbrev Dec := ℚ

/-- Python `str.upper()` restricted to the data of the string. -/
def upper (s : String) : String := ⟨s.data.map Char.toUpper⟩

/-- Split a character list on a separator, keeping empty components —
the behaviour of Python `str.split(sep)`. -/
def splitOnChar (sep : Char) : List Char → List (List Char)
  | [] => [[]]
  | c :: cs =>
    let rest := splitOnChar sep cs
    if c = sep then [] :: rest
    else
      match rest with
      | [] => [[c]]
      | r :: rs => (c :: r) :: rs

/-- Parse a non-empty all-digit character list as a decimal natural. -/
def digitsToNat? (cs : List Char) : Option Nat :=
  if cs = [] then none
  else cs.foldlM (fun acc c =>
    if c.isDigit then some (acc * 10 + (c.toNat - 48)) else none) 0

/-- Calendar date (no time component), as produced by
`datetime.strptime(s, "%Y-%m-%d").date()`. -/
structure PDate where
  year : ℕ
  month : ℕ
  day : ℕ
deriving DecidableEq

def isLeapYear (y : ℕ) : Bool :=
  (y % 4 = 0 && y % 100 ≠ 0) || y % 400 = 0

def daysInMonth (y m : ℕ) : ℕ :=
  if m = 2 then (if isLeapYear y then 29 else 28)
  else if m = 4 ∨ m = 6 ∨ m = 9 ∨ m = 11 then 30
  else 31

/-- Range validation performed by `datetime.date` (`MINYEAR = 1`,
`MAXYEAR = 9999`, months `1..12`, days bounded by the month length). -/
def mkValidDate? (y m d : ℕ) : Option PDate :=
  if 1 ≤ y ∧ y ≤ 9999 ∧ 1 ≤ m ∧ m ≤ 12 ∧ 1 ≤ d ∧ d ≤ daysInMonth y m
  then some ⟨y, m, d⟩ else none

/-- Model of `datetime.strptime(s, "%Y-%m-%d").date()`: exactly three
dash-separated all-digit components, validated as a calendar date; any
other shape raises `ValueError`, i.e. yields `none` here. -/
def parseDateYMD (s : String) : Option PDate :=
  match (splitOnChar (Char.ofNat 45) s.data).map digitsToNat? with
  | [some y, some m, some d] => mkValidDate? y m d
  | _ => none

/-- Lexicographic order on dates, used for `transaction_date` comparisons. -/
def PDate.key (d : PDate) : ℕ := d.year * 10000 + d.month * 100 + d.day

def PDate.leB (a b : PDate) : Bool := a.key ≤ b.key

/-- The database enum `transaction_type` (`BUY`, `SELL`, `DIVIDEND`, `SPLIT`). -/
inductive TxType where
  | BUY
  | SELL
  | DIVIDEND
  | SPLIT
deriving DecidableEq

/-- The cast of a string to the `transaction_type` enum performed by the
database on `INSERT`/`UPDATE`/comparison: unknown labels raise. -/
def TxType.ofString? (s : String) : Option TxType :=
  if s = "BUY" then some .BUY
  else if s = "SELL" then some .SELL
  else if s = "DIVIDEND" then some .DIVIDEND
  else if s = "SPLIT" then some .SPLIT
  else none

/-- The database enum `currency_type` (`USD`, `EUR`, `GBP`): the cast of a
string to it raises on unknown labels. -/
def validCurrency (s : String) : Bool :=
  s = "USD" || s = "EUR" || s = "GBP"

/-- Enum validity of an optional currency field (`NULL` casts fine). -/
def validCurrencyOpt (o : Option String) : Bool :=
  match o with
  | some c => validCurrency (upper c)
  | none => true

/-- A row of the `transactions` table. -/
structure TransactionRow where
  id : ℕ
  ticker : String
  transaction_type : TxType
  quantity : Dec
  cost_per_share : Dec
  currency : String
  transaction_date : PDate
  commission : Option Dec
  commission_currency : Option String
  drip_confirmed : Bool
  is_fractional : Bool
  fractional_multiplier : Dec
  notes : Option String
  created_at : ℕ
  updated_at : ℕ
deriving DecidableEq

/-- Pydantic model `TransactionCreate` (connection.py lines 170-186), with the
source's field defaults.  Note that it imposes no constraint on the sign of
`quantity`; the only validation is `ticker`'s `max_length=20`. -/
structure TransactionCreate where
  ticker : String
  transaction_type : String := "BUY"
  quantity : Dec
  cost_per_share : Dec
  currency : String
  transaction_date : PDate
  commission : Option Dec := some 0
  commission_currency : Option String := none
  drip_confirmed : Bool := false
  is_fractional : Bool := false
  fractional_multiplier : Dec := 1
  notes : Option String := none

/-- Pydantic model `TransactionUpdate` (connection.py lines 189-205):
every field optional, `none` meaning "not supplied". -/
structure TransactionUpdate where
  ticker : Option String := none
  transaction_type : Option String := none
  quantity : Option Dec := none
  cost_per_share : Option Dec := none
  currency : Option String := none
  transaction_date : Option PDate := none
  commission : Option Dec := none
  commission_currency : Option String := none
  drip_confirmed : Option Bool := none
  is_fractional : Option Bool := none
  fractional_multiplier : Option Dec := none
  notes : Option String := none

/-- Pydantic model `PositionUpdate` (connection.py lines 208-214), as used by
`update_position_market_data` (the derived-value fields are recomputed by the
CRUD layer, so only the inputs are carried here). -/
structure PositionUpdate where
  ticker : String
  current_price : Dec
  last_price_update : Option ℕ := none

/-- State of the `transactions` table together with the id counter and the
logical clock standing in for `CURRENT_TIMESTAMP`. -/
structure LedgerState where
  transactions : List TransactionRow
  nextId : ℕ
  clock : ℕ
deriving DecidableEq

namespace TransactionCRUD

/-- `TransactionCRUD.create_transaction` (portfolio_crud.py lines 23-58):
uppercases `ticker`, `transaction_type`, `currency` and
`commission_currency`, then executes the `INSERT`.  The database casts the
type and currency strings to their enums and rejects unknown labels, in
which case the statement raises and no row is inserted. -/
def create_transaction (t : TransactionCreate) (st : LedgerState) :
    Except String (ℕ × LedgerState) :=
  match TxType.ofString? (upper t.transaction_type) with
  | none => .error "invalid input value for enum transaction_type"
  | some ty =>
    if !validCurrency (upper t.currency) then
      .error "invalid input value for enum currency_type"
    else if !validCurrencyOpt t.commission_currency then
      .error "invalid input value for enum currency_type"
    else
      let row : TransactionRow :=
        { id := st.nextId
          ticker := upper t.ticker
          transaction_type := ty
          quantity := t.quantity
          cost_per_share := t.cost_per_share
          currency := upper t.currency
          transaction_date := t.transaction_date
          commission := t.commission
          commission_currency := t.commission_currency.map upper
          drip_confirmed := t.drip_confirmed
          is_fractional := t.is_fractional
          fractional_multiplier := t.fractional_multiplier
          notes := t.notes
          created_at := st.clock
          updated_at := st.clock }
      .ok (st.nextId,
           { transactions := st.transactions ++ [row]
             nextId := st.nextId + 1
             clock := st.clock + 1 })

/-- Whether any update field was supplied with a non-`None` value: the source
builds the `SET` list from exactly these fields and returns `False` without
running any query when the list is empty. -/
def TransactionUpdate.anySupplied (u : TransactionUpdate) : Bool :=
  u.ticker.isSome || u.transaction_type.isSome || u.quantity.isSome ||
  u.cost_per_share.isSome || u.currency.isSome || u.transaction_date.isSome ||
  u.commission.isSome || u.commission_currency.isSome ||
  u.drip_confirmed.isSome || u.is_fractional.isSome ||
  u.fractional_multiplier.isSome || u.notes.isSome

/-- Effect of the dynamic `UPDATE ... SET` on one matching row: each supplied
field is overwritten (`ticker`, `transaction_type`, `currency` and
`commission_currency` after uppercasing, as in the source), every other field
keeps its value, and `updated_at` is set to `CURRENT_TIMESTAMP`.  `ty` is the
enum value the database cast the supplied `transaction_type` string to. -/
def applyTxUpdate (u : TransactionUpdate) (ty : Option TxType) (now : ℕ)
    (r : TransactionRow) : TransactionRow :=
  { r with
    ticker := match u.ticker with | some s => upper s | none => r.ticker
    transaction_type := ty.getD r.transaction_type
    quantity := u.quantity.getD r.quantity
    cost_per_share := u.cost_per_share.getD r.cost_per_share
    currency := match u.currency with | some s => upper s | none => r.currency
    transaction_date := u.transaction_date.getD r.transaction_date
    commission := match u.commission with
                  | some c => some c
                  | none => r.commission
    commission_currency := match u.commission_currency with
                           | some s => some (upper s)
                           | none => r.commission_currency
    drip_confirmed := u.drip_confirmed.getD r.drip_confirmed
    is_fractional := u.is_fractional.getD r.is_fractional
    fractional_multiplier := u.fractional_multiplier.getD r.fractional_multiplier
    notes := match u.notes with | some s => some s | none => r.notes
    updated_at := now }

/-- `TransactionCRUD.update_transaction` (portfolio_crud.py lines 98-127):
builds the `SET` list from the supplied fields (returning `False` untouched
when none is supplied), then runs a single `UPDATE ... WHERE id = %s`; the
result is `rows_affected > 0`.  Supplied enum-typed fields are cast by the
database, which raises on unknown labels, leaving the table unchanged. -/
def update_transaction (tid : ℕ) (u : TransactionUpdate) (st : LedgerState) :
    Except String (Bool × LedgerState) :=
  if ¬ TransactionUpdate.anySupplied u then .ok (false, st)
  else
    match u.transaction_type with
    | some s =>
      match TxType.ofString? (upper s) with
      | none => .error "invalid input value for enum transaction_type"
      | some ty => runUpdate tid u (some ty) st
    | none => runUpdate tid u none st
where
  /-- The `UPDATE ... WHERE id` statement itself (enum casts already done). -/
  runUpdate (tid : ℕ) (u : TransactionUpdate) (ty : Option TxType)
      (st : LedgerState) : Except String (Bool × LedgerState) :=
    if !validCurrencyOpt u.currency then
      .error "invalid input value for enum currency_type"
    else if !validCurrencyOpt u.commission_currency then
      .error "invalid input value for enum currency_type"
    else
      .ok (st.transactions.any (fun r => r.id = tid),
           { transactions := st.transactions.map (fun r =>
               if r.id = tid then applyTxUpdate u ty st.clock r else r)
             nextId := st.nextId
             clock := st.clock + 1 })

end TransactionCRUD

/-- A row of the `positions` table. -/
structure PositionRow where
  ticker : String
  current_quantity : Dec
  avg_cost_per_share : Option Dec
  total_cost_basis : Dec
  current_price : Option Dec
  current_market_value : Option Dec
  unrealized_gain_loss : Option Dec
  last_price_update : Option ℕ
  primary_currency : String
  updated_at : ℕ
deriving DecidableEq

/-- State of the `positions` table with the logical clock. -/
structure PositionsState where
  positions : List PositionRow
  clock : ℕ
deriving DecidableEq

namespace PositionCRUD

/-- `PositionCRUD.get_position_by_ticker` (portfolio_crud.py lines 192-200):
`SELECT * FROM positions WHERE ticker = %s` on the uppercased ticker,
returning the first row if any. -/
def get_position_by_ticker (ticker : String) (st : PositionsState) :
    Option PositionRow :=
  st.positions.find? (fun r => r.ticker == upper ticker)

/-- `PositionCRUD.update_position_market_data` (portfolio_crud.py lines
234-273): reads the current position to derive `current_market_value` and
`unrealized_gain_loss` (both stay `NULL` when no position row exists), then
runs one `UPDATE positions SET ... WHERE ticker = %s`; the result is
`rows_affected > 0`.  `last_price_update` defaults to `datetime.now()`,
modelled by the current clock. -/
def update_position_market_data (u : PositionUpdate) (st : PositionsState) :
    Bool × PositionsState :=
  let pos := get_position_by_ticker u.ticker st
  let cmv : Option Dec := pos.map (fun p => p.current_quantity * u.current_price)
  let ugl : Option Dec :=
    pos.map (fun p => p.current_quantity * u.current_price - p.total_cost_basis)
  let lpu := u.last_price_update.getD st.clock
  (st.positions.any (fun r => r.ticker == upper u.ticker),
   { positions := st.positions.map (fun r =>
       if r.ticker == upper u.ticker then
         { r with
           current_price := some u.current_price
           current_market_value := cmv
           unrealized_gain_loss := ugl
           last_price_update := some lpu
           updated_at := st.clock }
       else r)
     clock := st.clock + 1 })

end PositionCRUD

/-! ## The position recalculation engine

`PositionCRUD.recalculate_position` only issues
`SELECT recalculate_position(%s)`: the engine itself is a SQL stored function
living in the database initialisation script, which is not under `src/`
(`test_db_setup.py` merely asserts its existence).  It is modelled here from
the specification, §4.1. -/

/-- Running accumulator of the recalculation fold. -/
structure EngineAcc where
  qty : Dec
  costBasis : Dec
  warn : Bool
deriving DecidableEq

/-- Modelled from the spec: one step of the §4.1 fold of the stored SQL
function `recalculate_position` (not under `src/`).
`BUY` adds `quantity * fractional_multiplier` effective shares and their cost
plus commission; `SELL` removes effective shares at the running average cost,
clamping at the held quantity with an integrity warning when the sell would
overshoot; `DIVIDEND` changes nothing; `SPLIT` scales the quantity by the
ratio carried in the `quantity` field, leaving the cost basis unchanged. -/
def engineStep (acc : EngineAcc) (t : TransactionRow) : EngineAcc :=
  match t.transaction_type with
  | .BUY =>
    let eff := t.quantity * t.fractional_multiplier
    { qty := acc.qty + eff
      costBasis := acc.costBasis + eff * t.cost_per_share + t.commission.getD 0
      warn := acc.warn }
  | .SELL =>
    let eff := t.quantity * t.fractional_multiplier
    if acc.qty ≤ 0 then { acc with warn := true }
    else
      let sold := min eff acc.qty
      { qty := acc.qty - sold
        costBasis := acc.costBasis - sold * (acc.costBasis / acc.qty)
        warn := acc.warn || decide (acc.qty < eff) }
  | .DIVIDEND => acc
  | .SPLIT => { acc with qty := acc.qty * t.quantity }

/-- Fold ordering of §4.1: `transaction_date` ascending, ties broken by
insertion order (`created_at`). -/
def txFoldLe (a b : TransactionRow) : Bool :=
  a.transaction_date.key < b.transaction_date.key ||
  (a.transaction_date.key = b.transaction_date.key && a.created_at ≤ b.created_at)

/-- Modelled from the spec: the §4.1 recompute-from-scratch fold of the stored
SQL function `recalculate_position` over one ticker's transactions.  It takes
only the transaction list — no position data. -/
def recalcEngine (txs : List TransactionRow) : EngineAcc :=
  (txs.mergeSort txFoldLe).foldl engineStep ⟨0, 0, false⟩

/-- The position snapshot produced by one recalculation. -/
structure PositionSnapshot where
  current_quantity : Dec
  total_cost_basis : Dec
  avg_cost_per_share : Option Dec
  integrity_warning : Bool
deriving DecidableEq

/-- Modelled from the spec (§4.1, final step): `avg_cost_per_share =
cost_basis / quantity` when the quantity is positive, else null. -/
def engineSnapshot (txs : List TransactionRow) : PositionSnapshot :=
  let a := recalcEngine txs
  { current_quantity := a.qty
    total_cost_basis := a.costBasis
    avg_cost_per_share := if 0 < a.qty then some (a.costBasis / a.qty) else none
    integrity_warning := a.warn }

/-- Upsert into the snapshot store keyed by ticker (replace when present,
append when absent). -/
def upsertSnap (store : List (String × PositionSnapshot)) (t : String)
    (s : PositionSnapshot) : List (String × PositionSnapshot) :=
  match store with
  | [] => [(t, s)]
  | kv :: rest =>
    if kv.1 = t then (t, s) :: rest else kv :: upsertSnap rest t s

/-- Lookup in the snapshot store. -/
def lookupSnap (store : List (String × PositionSnapshot)) (t : String) :
    Option PositionSnapshot :=
  match store with
  | [] => none
  | kv :: rest => if kv.1 = t then some kv.2 else lookupSnap rest t

/-- Modelled from the spec: the effect of one `SELECT recalculate_position(t)`
call on the position store — recompute the snapshot from the ticker's
transactions alone (the ticker is uppercased by the Python caller,
portfolio_crud.py line 279) and upsert it. -/
def recalculate_position_store (store : List (String × PositionSnapshot))
    (ledger : List TransactionRow) (ticker : String) :
    List (String × PositionSnapshot) :=
  upsertSnap store (upper ticker)
    (engineSnapshot (ledger.filter (fun r => r.ticker == upper ticker)))

/-! ## Batch recalculation -/

/-- `SELECT DISTINCT ticker FROM transactions`. -/
def distinctTickers (txs : List TransactionRow) : List String :=
  (txs.map (fun r => r.ticker)).dedup

/-- The loop body of `PositionCRUD.recalculate_all_positions`
(portfolio_crud.py lines 286-300): call `recalculate_position` on each
distinct ticker in turn.  `ok t` tells whether the call for ticker `t`
succeeds (a failing call raises, portfolio_crud.py lines 282-284).  Returns
the tickers whose recalculation ran successfully, paired with the overall
outcome: the loop body lives inside one `try`, so the first raise aborts the
remaining iterations and the whole operation re-raises. -/
def recalcAllRun (ok : String → Bool) : List String → List String × Except String Bool
  | [] => ([], .ok true)
  | t :: ts =>
    if ok t then
      let r := recalcAllRun ok ts
      (t :: r.1, r.2)
    else ([], .error ("Failed to recalculate position for " ++ t))

/-- `PositionCRUD.recalculate_all_positions` over a ledger state. -/
def recalculate_all_positions (ok : String → Bool) (st : LedgerState) :
    List String × Except String Bool :=
  recalcAllRun ok (distinctTickers st.transactions)

namespace PortfolioCRUD

/-- SQL aggregate `SUM` over a column expression: `NULL` terms are skipped,
and the sum of no (non-`NULL`) terms is `NULL`. -/
def sqlSum (l : List (Option Dec)) : Option Dec :=
  let vs := l.filterMap id
  if vs = [] then none else some vs.sum

/-- The result dictionary of `PortfolioCRUD.get_performance_metrics`, holding
the aggregates the source computes with and the two derived percentages. -/
structure PerformanceMetrics where
  total_positions : ℕ
  winning_positions : ℕ
  losing_positions : ℕ
  total_market_value : Option Dec
  total_invested : Option Dec
  total_return_percentage : Dec
  win_rate : Dec
deriving DecidableEq

/-- `PortfolioCRUD.get_performance_metrics` (portfolio_crud.py lines 360-397):
aggregates over positions with `current_quantity > 0`, then derives
`total_return_percentage` (0 unless `total_invested` is truthy and positive)
and `win_rate` (0 unless `total_positions > 0`).  When `total_invested` is
positive but `total_market_value` is `NULL` (every held position lacking a
price), the source's `float(None)` raises a `TypeError`, re-raised by the
surrounding handler — modelled as `.error`. -/
def get_performance_metrics (ps : List PositionRow) :
    Except String PerformanceMetrics :=
  let f := ps.filter (fun r => decide (0 < r.current_quantity))
  let total_positions := f.length
  let winning := (f.filter (fun r =>
    (r.unrealized_gain_loss.map (fun g => decide (0 < g))).getD false)).length
  let losing := (f.filter (fun r =>
    (r.unrealized_gain_loss.map (fun g => decide (g < 0))).getD false)).length
  let tmv := sqlSum (f.map (fun r =>
    r.current_price.map (fun p => r.current_quantity * p)))
  let ti := sqlSum (f.map (fun r => some r.total_cost_basis))
  let trp? : Except String Dec :=
    match ti with
    | some v =>
      if v ≠ 0 ∧ 0 < v then
        match tmv with
        | some m => .ok ((m - v) / v * 100)
        | none => .error "float() argument must be a string or a real number, not NoneType"
      else .ok 0
    | none => .ok 0
  match trp? with
  | .error e => .error e
  | .ok trp =>
    let wr : Dec :=
      if total_positions ≠ 0 then (winning : Dec) / (total_positions : Dec) * 100
      else 0
    .ok { total_positions := total_positions
          winning_positions := winning
          losing_positions := losing
          total_market_value := tmv
          total_invested := ti
          total_return_percentage := trp
          win_rate := wr }

/-- The `metrics` sub-dictionary of `PortfolioCRUD.get_ticker_analysis`. -/
structure TickerMetrics where
  total_bought : Dec
  total_sold : Dec
  net_quantity : Dec
  total_transactions : ℕ
deriving DecidableEq

/-- The derived counters of `PortfolioCRUD.get_ticker_analysis`
(portfolio_crud.py lines 311-338), computed over the ticker's transaction
rows: `total_bought` sums the raw `quantity` of `BUY` rows, `total_sold`
that of `SELL` rows, `net_quantity` is their difference and
`total_transactions` counts every row. -/
def get_ticker_analysis_metrics (txs : List TransactionRow) : TickerMetrics :=
  let total_bought :=
    ((txs.filter (fun t => t.transaction_type = .BUY)).map
      (fun t => t.quantity)).sum
  let total_sold :=
    ((txs.filter (fun t => t.transaction_type = .SELL)).map
      (fun t => t.quantity)).sum
  { total_bought := total_bought
    total_sold := total_sold
    net_quantity := total_bought - total_sold
    total_transactions := txs.length }

/-- The filter arguments of `PortfolioCRUD.search_transactions`. -/
structure SearchFilters where
  ticker : Option String := none
  start_date : Option PDate := none
  end_date : Option PDate := none
  transaction_type : Option String := none
  min_quantity : Option Dec := none
  max_quantity : Option Dec := none

/-- The `transaction_type` condition: a falsy argument (`None` or the empty
string) adds no condition; otherwise the database casts the uppercased string
to the enum, raising on unknown labels. -/
def typeCond? (o : Option String) : Except String (Option TxType) :=
  match o with
  | none => .ok none
  | some s =>
    if s = "" then .ok none
    else
      match TxType.ofString? (upper s) with
      | some ty => .ok (some ty)
      | none => .error "invalid input value for enum transaction_type"

/-- The conjunction of `WHERE` conditions built by `search_transactions`:
each condition is added only when its argument is truthy — in particular a
`min_quantity`/`max_quantity` equal to 0 is falsy and adds no condition —
and the quantity bounds compare against `ABS(quantity)`. -/
def matchesFilters (f : SearchFilters) (tyc : Option TxType)
    (r : TransactionRow) : Bool :=
  (match f.ticker with
   | some t => if t = "" then true else r.ticker == upper t
   | none => true) &&
  (match f.start_date with
   | some d => d.leB r.transaction_date
   | none => true) &&
  (match f.end_date with
   | some d => r.transaction_date.leB d
   | none => true) &&
  (match tyc with
   | some ty => r.transaction_type = ty
   | none => true) &&
  (match f.min_quantity with
   | some q => if q = 0 then true else decide (q ≤ |r.quantity|)
   | none => true) &&
  (match f.max_quantity with
   | some q => if q = 0 then true else decide (|r.quantity| ≤ q)
   | none => true)

/-- `ORDER BY transaction_date DESC, created_at DESC`. -/
def searchOrd (a b : TransactionRow) : Bool :=
  b.transaction_date.key < a.transaction_date.key ||
  (b.transaction_date.key = a.transaction_date.key && b.created_at ≤ a.created_at)

/-- `PortfolioCRUD.search_transactions` (portfolio_crud.py lines 399-446):
keeps the rows satisfying every truthy filter, ordered by date then creation
time, both descending. -/
def search_transactions (f : SearchFilters) (rows : List TransactionRow) :
    Except String (List TransactionRow) :=
  match typeCond? f.transaction_type with
  | .error e => .error e
  | .ok tyc => .ok ((rows.filter (matchesFilters f tyc)).mergeSort searchOrd)

end PortfolioCRUD

/-! ## The operations façade (`portfolio_operations.py`)

Every public operation wraps its body in `try/except` and returns an
`OperationResponse`; the underlying CRUD layer re-raises database faults, so
it appears here as an oracle whose calls may return `.error`. -/

/-- The JSON-serialisable payloads the operations attach to their responses
(the source's `data` dictionaries after `convert_for_json`). -/
inductive Payload where
  | txid : ℕ → Payload
  | tx : TransactionRow → Payload
  | txList : List TransactionRow → Payload
  | pos : PositionRow → Payload
  | posList : List PositionRow → Payload
  | summary : List (String × Dec) → Payload
  | analysis : PortfolioCRUD.TickerMetrics → Payload
  | metrics : PortfolioCRUD.PerformanceMetrics → Payload
deriving DecidableEq

/-- `OperationResponse` (portfolio_operations.py lines 81-85). -/
structure OperationResponse where
  success : Bool
  message : String
  data : Option Payload := none
deriving DecidableEq

/-- `CreateTransactionInput` (portfolio_operations.py lines 35-46): the
façade-level request, carrying the date as a string. -/
structure CreateTransactionInput where
  ticker : String
  transaction_type : String
  quantity : Dec
  cost_per_share : Dec
  currency : String := "USD"
  transaction_date : String
  commission : Option Dec := none
  commission_currency : Option String := none
  drip_confirmed : Bool := false
  notes : Option String := none

/-- `UpdateTransactionInput` (portfolio_operations.py lines 48-60). -/
structure UpdateTransactionInput where
  transaction_id : ℕ
  ticker : Option String := none
  transaction_type : Option String := none
  quantity : Option Dec := none
  cost_per_share : Option Dec := none
  currency : Option String := none
  transaction_date : Option String := none
  commission : Option Dec := none
  commission_currency : Option String := none
  drip_confirmed : Option Bool := none
  notes : Option String := none

/-- `UpdateMarketDataInput` (portfolio_operations.py lines 62-66).  The
optional timestamp is parsed with `datetime.fromisoformat`, modelled here by
the date parser (date-precision timestamps). -/
structure UpdateMarketDataInput where
  ticker : String
  current_price : Dec
  last_price_update : Option String := none

/-- `SearchTransactionsInput` (portfolio_operations.py lines 68-75). -/
structure SearchTransactionsInput where
  ticker : Option String := none
  start_date : Option String := none
  end_date : Option String := none
  transaction_type : Option String := none
  min_quantity : Option Dec := none
  max_quantity : Option Dec := none

/-- The CRUD layer as seen by the façade: each call either returns its value
or raises (`.error`), exactly the behaviour of the `*_crud` singletons whose
methods re-raise database exceptions. -/
structure Crud where
  createTx : TransactionCreate → Except String ℕ
  getTxById : ℕ → Except String (Option TransactionRow)
  updateTx : ℕ → TransactionUpdate → Except String Bool
  deleteTx : ℕ → Except String Bool
  txsByTicker : String → Except String (List TransactionRow)
  allPositions : Except String (List PositionRow)
  positionByTicker : String → Except String (Option PositionRow)
  updateMarketData : PositionUpdate → Except String Bool
  portfolioSummary : Except String (List (String × Dec))
  tickerAnalysis : String → Except String PortfolioCRUD.TickerMetrics
  searchTxs : PortfolioCRUD.SearchFilters → Except String (List TransactionRow)
  performanceMetrics : Except String PortfolioCRUD.PerformanceMetrics
  recalcPosition : String → Except String Bool
  recalcAll : Except String Bool

namespace Ops

/-- The Python truthiness conversion `Decimal(str(x)) if x else None`
applied by the façade to optional numeric fields (`commission`,
`min_quantity`, `max_quantity`): `None` and 0 map to `None`. -/
def truthyDec (o : Option Dec) : Option Dec :=
  match o with
  | some c => if c = 0 then none else some c
  | none => none

/-- `create_transaction` (portfolio_operations.py lines 108-148): parse the
date string, build the `TransactionCreate` (pydantic checks the ticker's
`max_length=20`), call the CRUD insert; any exception on the way is caught
and turned into a failure response. -/
def create_transaction (c : Crud) (inp : CreateTransactionInput) :
    OperationResponse :=
  match parseDateYMD inp.transaction_date with
  | none =>
    { success := false
      message := "Error creating transaction: time data does not match format"
      data := none }
  | some d =>
    if 20 < inp.ticker.length then
      { success := false
        message := "Error creating transaction: ticker too long"
        data := none }
    else
      let t : TransactionCreate :=
        { ticker := inp.ticker
          transaction_type := inp.transaction_type
          quantity := inp.quantity
          cost_per_share := inp.cost_per_share
          currency := inp.currency
          transaction_date := d
          commission := truthyDec inp.commission
          commission_currency := inp.commission_currency
          drip_confirmed := inp.drip_confirmed
          notes := inp.notes }
      match c.createTx t with
      | .ok tid =>
        { success := true
          message := "Successfully created transaction"
          data := some (.txid tid) }
      | .error e =>
        { success := false
          message := "Error creating transaction: " ++ e
          data := none }

/-- `get_transaction` (portfolio_operations.py lines 150-179). -/
def get_transaction (c : Crud) (tid : ℕ) : OperationResponse :=
  match c.getTxById tid with
  | .ok (some t) =>
    { success := true
      message := "Transaction retrieved successfully"
      data := some (.tx t) }
  | .ok none =>
    { success := false, message := "Transaction not found", data := none }
  | .error e =>
    { success := false, message := "Error getting transaction: " ++ e, data := none }

/-- `update_transaction` (portfolio_operations.py lines 181-222): parse the
optional date string, build the `TransactionUpdate` from the supplied fields,
call the CRUD update; `False` from the CRUD yields a "not found or no
changes" failure; exceptions become failure responses. -/
def update_transaction (c : Crud) (inp : UpdateTransactionInput) :
    OperationResponse :=
  let d? : Except String (Option PDate) :=
    match inp.transaction_date with
    | none => .ok none
    | some s =>
      match parseDateYMD s with
      | some d => .ok (some d)
      | none => .error "time data does not match format"
  match d? with
  | .error e =>
    { success := false, message := "Error updating transaction: " ++ e, data := none }
  | .ok d =>
    let u : TransactionUpdate :=
      { ticker := inp.ticker
        transaction_type := inp.transaction_type
        quantity := inp.quantity
        cost_per_share := inp.cost_per_share
        currency := inp.currency
        transaction_date := d
        commission := inp.commission
        commission_currency := inp.commission_currency
        drip_confirmed := inp.drip_confirmed
        notes := inp.notes }
    match c.updateTx inp.transaction_id u with
    | .ok true =>
      { success := true, message := "Successfully updated transaction", data := none }
    | .ok false =>
      { success := false
        message := "Transaction not found or no changes made"
        data := none }
    | .error e =>
      { success := false, message := "Error updating transaction: " ++ e, data := none }

/-- `delete_transaction` (portfolio_operations.py lines 224-251). -/
def delete_transaction (c : Crud) (tid : ℕ) : OperationResponse :=
  match c.deleteTx tid with
  | .ok true =>
    { success := true, message := "Successfully deleted transaction", data := none }
  | .ok false =>
    { success := false, message := "Transaction not found", data := none }
  | .error e =>
    { success := false, message := "Error deleting transaction: " ++ e, data := none }

/-- `get_transactions_by_ticker` (portfolio_operations.py lines 253-277). -/
def get_transactions_by_ticker (c : Crud) (ticker : String) : OperationResponse :=
  match c.txsByTicker ticker with
  | .ok ts =>
    { success := true
      message := "Retrieved transactions for " ++ ticker
      data := some (.txList ts) }
  | .error e =>
    { success := false, message := "Error getting transactions: " ++ e, data := none }

/-- `get_all_positions` (portfolio_operations.py lines 279-300). -/
def get_all_positions (c : Crud) : OperationResponse :=
  match c.allPositions with
  | .ok ps =>
    { success := true, message := "Retrieved positions", data := some (.posList ps) }
  | .error e =>
    { success := false, message := "Error getting positions: " ++ e, data := none }

/-- `get_position_by_ticker` (portfolio_operations.py lines 302-331). -/
def get_position_by_ticker (c : Crud) (ticker : String) : OperationResponse :=
  match c.positionByTicker ticker with
  | .ok (some p) =>
    { success := true
      message := "Position retrieved for " ++ ticker
      data := some (.pos p) }
  | .ok none =>
    { success := false
      message := "No position found for ticker " ++ ticker
      data := none }
  | .error e =>
    { success := false, message := "Error getting position: " ++ e, data := none }

/-- `update_market_data` (portfolio_operations.py lines 333-371): parse the
optional timestamp, build the `PositionUpdate`, call the CRUD update. -/
def update_market_data (c : Crud) (inp : UpdateMarketDataInput) :
    OperationResponse :=
  let d? : Except String (Option ℕ) :=
    match inp.last_price_update with
    | none => .ok none
    | some s =>
      match parseDateYMD s with
      | some d => .ok (some d.key)
      | none => .error "Invalid isoformat string"
  match d? with
  | .error e =>
    { success := false, message := "Error updating market data: " ++ e, data := none }
  | .ok lpu =>
    match c.updateMarketData
        { ticker := inp.ticker
          current_price := inp.current_price
          last_price_update := lpu } with
    | .ok true =>
      { success := true
        message := "Successfully updated market data for " ++ inp.ticker
        data := none }
    | .ok false =>
      { success := false
        message := "Position for " ++ inp.ticker ++ " not found"
        data := none }
    | .error e =>
      { success := false, message := "Error updating market data: " ++ e, data := none }

/-- `get_portfolio_summary` (portfolio_operations.py lines 373-394). -/
def get_portfolio_summary (c : Crud) : OperationResponse :=
  match c.portfolioSummary with
  | .ok s =>
    { success := true
      message := "Portfolio summary retrieved successfully"
      data := some (.summary s) }
  | .error e =>
    { success := false
      message := "Error getting portfolio summary: " ++ e
      data := none }

/-- `get_ticker_analysis` (portfolio_operations.py lines 396-421). -/
def get_ticker_analysis (c : Crud) (ticker : String) : OperationResponse :=
  match c.tickerAnalysis ticker with
  | .ok a =>
    { success := true
      message := "Analysis retrieved for " ++ ticker
      data := some (.analysis a) }
  | .error e =>
    { success := false
      message := "Error getting ticker analysis: " ++ e
      data := none }

/-- `search_transactions` (portfolio_operations.py lines 423-468): parse the
optional date strings, apply the truthiness conversion to the quantity
bounds, call the CRUD search. -/
def search_transactions (c : Crud) (inp : SearchTransactionsInput) :
    OperationResponse :=
  let sd? : Except String (Option PDate) :=
    match inp.start_date with
    | none => .ok none
    | some s =>
      match parseDateYMD s with
      | some d => .ok (some d)
      | none => .error "time data does not match format"
  let ed? : Except String (Option PDate) :=
    match inp.end_date with
    | none => .ok none
    | some s =>
      match parseDateYMD s with
      | some d => .ok (some d)
      | none => .error "time data does not match format"
  match sd?, ed? with
  | .error e, _ =>
    { success := false, message := "Error searching transactions: " ++ e, data := none }
  | _, .error e =>
    { success := false, message := "Error searching transactions: " ++ e, data := none }
  | .ok sd, .ok ed =>
    match c.searchTxs
        { ticker := inp.ticker
          start_date := sd
          end_date := ed
          transaction_type := inp.transaction_type
          min_quantity := truthyDec inp.min_quantity
          max_quantity := truthyDec inp.max_quantity } with
    | .ok ts =>
      { success := true
        message := "Found matching transactions"
        data := some (.txList ts) }
    | .error e =>
      { success := false
        message := "Error searching transactions: " ++ e
        data := none }

/-- `get_performance_metrics` (portfolio_operations.py lines 470-491). -/
def get_performance_metrics (c : Crud) : OperationResponse :=
  match c.performanceMetrics with
  | .ok m =>
    { success := true
      message := "Performance metrics retrieved successfully"
      data := some (.metrics m) }
  | .error e =>
    { success := false
      message := "Error getting performance metrics: " ++ e
      data := none }

/-- `recalculate_position` (portfolio_operations.py lines 493-520). -/
def recalculate_position (c : Crud) (ticker : String) : OperationResponse :=
  match c.recalcPosition ticker with
  | .ok true =>
    { success := true
      message := "Successfully recalculated position for " ++ ticker
      data := none }
  | .ok false =>
    { success := false
      message := "Failed to recalculate position for " ++ ticker
      data := none }
  | .error e =>
    { success := false
      message := "Error recalculating position: " ++ e
      data := none }

/-- `recalculate_all_positions` (portfolio_operations.py lines 522-546). -/
def recalculate_all_positions (c : Crud) : OperationResponse :=
  match c.recalcAll with
  | .ok true =>
    { success := true
      message := "Successfully recalculated all positions"
      data := none }
  | .ok false =>
    { success := false
      message := "Failed to recalculate positions"
      data := none }
  | .error e =>
    { success := false
      message := "Error recalculating all positions: " ++ e
      data := none }

end Ops

/-- The full request surface of the operations module. -/
inductive Request where
  | createTransaction : CreateTransactionInput → Request
  | getTransaction : ℕ → Request
  | updateTransaction : UpdateTransactionInput → Request
  | deleteTransaction : ℕ → Request
  | getTransactionsByTicker : String → Request
  | getAllPositions : Request
  | getPositionByTicker : String → Request
  | updateMarketData : UpdateMarketDataInput → Request
  | getPortfolioSummary : Request
  | getTickerAnalysis : String → Request
  | searchTransactions : SearchTransactionsInput → Request
  | getPerformanceMetrics : Request
  | recalculatePosition : String → Request
  | recalculateAllPositions : Request

/-- Dispatch a request to its operation. -/
def handle (c : Crud) : Request → OperationResponse
  | .createTransaction inp => Ops.create_transaction c inp
  | .getTransaction tid => Ops.get_transaction c tid
  | .updateTransaction inp => Ops.update_transaction c inp
  | .deleteTransaction tid => Ops.delete_transaction c tid
  | .getTransactionsByTicker t => Ops.get_transactions_by_ticker c t
  | .getAllPositions => Ops.get_all_positions c
  | .getPositionByTicker t => Ops.get_position_by_ticker c t
  | .updateMarketData inp => Ops.update_market_data c inp
  | .getPortfolioSummary => Ops.get_portfolio_summary c
  | .getTickerAnalysis t => Ops.get_ticker_analysis c t
  | .searchTransactions inp => Ops.search_transactions c inp
  | .getPerformanceMetrics => Ops.get_performance_metrics c
  | .recalculatePosition t => Ops.recalculate_position c t
  | .recalculateAllPositions => Ops.recalculate_all_positions c

/-- A CRUD layer on which every call raises. -/
def crudAllFail (c : Crud) : Prop :=
  (∀ t, ∃ e, c.createTx t = .error e) ∧
  (∀ i, ∃ e, c.getTxById i = .error e) ∧
  (∀ i u, ∃ e, c.updateTx i u = .error e) ∧
  (∀ i, ∃ e, c.deleteTx i = .error e) ∧
  (∀ t, ∃ e, c.txsByTicker t = .error e) ∧
  (∃ e, c.allPositions = .error e) ∧
  (∀ t, ∃ e, c.positionByTicker t = .error e) ∧
  (∀ u, ∃ e, c.updateMarketData u = .error e) ∧
  (∃ e, c.portfolioSummary = .error e) ∧
  (∀ t, ∃ e, c.tickerAnalysis t = .error e) ∧
  (∀ f, ∃ e, c.searchTxs f = .error e) ∧
  (∃ e, c.performanceMetrics = .error e) ∧
  (∀ t, ∃ e, c.recalcPosition t = .error e) ∧
  (∃ e, c.recalcAll = .error e)

/-- The façade `create_transaction` run against the concrete ledger store:
same control flow as `Ops.create_transaction`, with the CRUD call wired to
`TransactionCRUD.create_transaction` so that the effect on the
`transactions` table is visible. -/
def create_transaction_flow (inp : CreateTransactionInput) (st : LedgerState) :
    OperationResponse × LedgerState :=
  match parseDateYMD inp.transaction_date with
  | none =>
    ({ success := false
       message := "Error creating transaction: time data does not match format"
       data := none }, st)
  | some d =>
    if 20 < inp.ticker.length then
      ({ success := false
         message := "Error creating transaction: ticker too long"
         data := none }, st)
    else
      let t : TransactionCreate :=
        { ticker := inp.ticker
          transaction_type := inp.transaction_type
          quantity := inp.quantity
          cost_per_share := inp.cost_per_share
          currency := inp.currency
          transaction_date := d
          commission := Ops.truthyDec inp.commission
          commission_currency := inp.commission_currency
          drip_confirmed := inp.drip_confirmed
          notes := inp.notes }
      match TransactionCRUD.create_transaction t st with
      | .ok r =>
        ({ success := true
           message := "Successfully created transaction"
           data := some (.txid r.1) }, r.2)
      | .error e =>
        ({ success := false
           message := "Error creating transaction: " ++ e
           data := none }, st)

/-- The façade `recalculate_all_positions` run against the concrete batch
loop: the CRUD call is `recalculate_all_positions` over the ledger, and the
list of tickers whose recalculation actually ran is returned alongside the
response. -/
def recalculate_all_positions_flow (ok : String → Bool) (st : LedgerState) :
    OperationResponse × List String :=
  match recalculate_all_positions ok st with
  | (done, .ok _) =>
    ({ success := true
       message := "Successfully recalculated all positions"
       data := none }, done)
  | (done, .error e) =>
    ({ success := false
       message := "Error recalculating all positions: " ++ e
       data := none }, done)

/-! ## Claim theorems -/

theorem upsertSnap_idem (store : List (String × PositionSnapshot)) (t : String)
    (s : PositionSnapshot) :
    upsertSnap (upsertSnap store t s) t s = upsertSnap store t s := by
  induction store with
  | nil => simp [upsertSnap]
  | cons kv rest ih =>
    by_cases h : kv.1 = t
    · simp [upsertSnap, h]
    · simp [upsertSnap, h, ih]

theorem lookupSnap_upsert (store : List (String × PositionSnapshot)) (t : String)
    (s : PositionSnapshot) :
    lookupSnap (upsertSnap store t s) t = some s := by
  induction store with
  | nil => simp [upsertSnap, lookupSnap]
  | cons kv rest ih =>
    by_cases h : kv.1 = t
    · simp [upsertSnap, h, lookupSnap]
    · simp [upsertSnap, h, lookupSnap, ih]

/-- C2: recalculation is a pure function of the ticker's transaction set —
recalculating twice with the ledger unchanged leaves the position store
bit-identical, the snapshot written for the ticker does not depend on the
previous contents of the position store (in particular not on the previous
`Position` row), and it equals the engine's fold over the ticker's
transactions alone. -/
theorem recalculate_position_pure (store other : List (String × PositionSnapshot))
    (ledger : List TransactionRow) (ticker : String) :
    recalculate_position_store (recalculate_position_store store ledger ticker)
        ledger ticker
      = recalculate_position_store store ledger ticker ∧
    lookupSnap (recalculate_position_store store ledger ticker) (upper ticker)
      = lookupSnap (recalculate_position_store other ledger ticker) (upper ticker) ∧
    lookupSnap (recalculate_position_store store ledger ticker) (upper ticker)
      = some (engineSnapshot (ledger.filter (fun r => r.ticker == upper ticker))) := by
  refine ⟨upsertSnap_idem _ _ _, ?_, ?_⟩
  · rw [recalculate_position_store, recalculate_position_store,
      lookupSnap_upsert, lookupSnap_upsert]
  · rw [recalculate_position_store, lookupSnap_upsert]

/-- A plain transaction row on a fixed date, used for concrete checks;
`i` doubles as id and insertion order. -/
def sampleTx (i : ℕ) (ty : TxType) (q price : Dec) : TransactionRow :=
  { id := i
    ticker := "X"
    transaction_type := ty
    quantity := q
    cost_per_share := price
    currency := "USD"
    transaction_date := ⟨2024, 1, 1⟩
    commission := some 0
    commission_currency := none
    drip_confirmed := false
    is_fractional := false
    fractional_multiplier := 1
    notes := none
    created_at := i
    updated_at := i }

/-- A fractional BUY: recorded quantity 10, multiplier 0.1, i.e. one
effective share. -/
def fracBuy : TransactionRow :=
  { sampleTx 0 .BUY 10 100 with
    is_fractional := true
    fractional_multiplier := 1/10 }

/-- Engine sanity (spec §8 "Average cost"): BUY 10@100 then BUY 10@200
yields quantity 20, cost basis 3000, average cost 150. -/
theorem engine_average_cost_check :
    engineSnapshot [sampleTx 0 .BUY 10 100, sampleTx 1 .BUY 10 200]
      = { current_quantity := 20
          total_cost_basis := 3000
          avg_cost_per_share := some 150
          integrity_warning := false } := by
  norm_num [engineSnapshot, recalcEngine, engineStep, txFoldLe, sampleTx,
    List.mergeSort, PDate.key]

/-- Engine sanity (spec §8 "Sell reduces proportionally"): continuing with a
SELL of 5 shares leaves quantity 15 and cost basis 2250. -/
theorem engine_sell_proportional_check :
    engineSnapshot
        [sampleTx 0 .BUY 10 100, sampleTx 1 .BUY 10 200, sampleTx 2 .SELL 5 180]
      = { current_quantity := 15
          total_cost_basis := 2250
          avg_cost_per_share := some 150
          integrity_warning := false } := by
  norm_num [engineSnapshot, recalcEngine, engineStep, txFoldLe, sampleTx,
    List.mergeSort, PDate.key]

/-- Engine sanity (spec §8 "Fractional correctness"): a BUY of quantity 10
with multiplier 0.1 contributes exactly one effective share. -/
theorem engine_fractional_check :
    (engineSnapshot [fracBuy]).current_quantity = 1 := by
  norm_num [engineSnapshot, recalcEngine, engineStep, fracBuy, sampleTx,
    List.mergeSort]

theorem sum_quantity_filter_map_mult (txs : List TransactionRow)
    (g : TransactionRow → Dec) (ty : TxType) :
    (((txs.map (fun r => { r with fractional_multiplier := g r })).filter
        (fun t => t.transaction_type = ty)).map (fun t => t.quantity)).sum
      = ((txs.filter (fun t => t.transaction_type = ty)).map
          (fun t => t.quantity)).sum := by
  induction txs with
  | nil => simp
  | cons a l ih =>
    by_cases h : a.transaction_type = ty <;>
      simp [List.filter_cons, h, ih]

/-- C9: the derived counters of `get_ticker_analysis` are computed from raw
`quantity` fields only — they are invariant under arbitrary changes of every
row's `fractional_multiplier`, appending a `DIVIDEND` or `SPLIT` row changes
none of `total_bought`, `total_sold`, `net_quantity`, and on the concrete
fractional history `[fracBuy]` the analysis reports `net_quantity = 10`
while the recalculation engine holds `current_quantity = 1`. -/
theorem ticker_analysis_raw_quantities (txs : List TransactionRow)
    (g : TransactionRow → Dec) (d : TransactionRow)
    (hd : d.transaction_type = .DIVIDEND ∨ d.transaction_type = .SPLIT) :
    PortfolioCRUD.get_ticker_analysis_metrics
        (txs.map (fun r => { r with fractional_multiplier := g r }))
      = PortfolioCRUD.get_ticker_analysis_metrics txs ∧
    (PortfolioCRUD.get_ticker_analysis_metrics (txs ++ [d])).total_bought
      = (PortfolioCRUD.get_ticker_analysis_metrics txs).total_bought ∧
    (PortfolioCRUD.get_ticker_analysis_metrics (txs ++ [d])).total_sold
      = (PortfolioCRUD.get_ticker_analysis_metrics txs).total_sold ∧
    (PortfolioCRUD.get_ticker_analysis_metrics (txs ++ [d])).net_quantity
      = (PortfolioCRUD.get_ticker_analysis_metrics txs).net_quantity ∧
    (PortfolioCRUD.get_ticker_analysis_metrics [fracBuy]).net_quantity = 10 ∧
    (engineSnapshot [fracBuy]).current_quantity = 1 ∧
    (PortfolioCRUD.get_ticker_analysis_metrics [fracBuy]).net_quantity
      ≠ (engineSnapshot [fracBuy]).current_quantity := by
  have hbuy : d.transaction_type ≠ .BUY := by
    rcases hd with h | h <;> simp [h]
  have hsell : d.transaction_type ≠ .SELL := by
    rcases hd with h | h <;> simp [h]
  refine ⟨?_, ?_, ?_, ?_, ?_, engine_fractional_check, ?_⟩
  · simp [PortfolioCRUD.get_ticker_analysis_metrics,
      sum_quantity_filter_map_mult]
  · simp [PortfolioCRUD.get_ticker_analysis_metrics, List.filter_append,
      List.filter_cons, hbuy]
  · simp [PortfolioCRUD.get_ticker_analysis_metrics, List.filter_append,
      List.filter_cons, hsell]
  · simp [PortfolioCRUD.get_ticker_analysis_metrics, List.filter_append,
      List.filter_cons, hbuy, hsell]
  · simp [PortfolioCRUD.get_ticker_analysis_metrics, fracBuy, sampleTx]
  · rw [engine_fractional_check]
    simp [PortfolioCRUD.get_ticker_analysis_metrics, fracBuy, sampleTx,
      List.filter_cons]

/-- Witness for `ticker_analysis_raw_quantities` at a concrete history and a
concrete `DIVIDEND` row. -/
theorem ticker_analysis_raw_quantities_witness :
    PortfolioCRUD.get_ticker_analysis_metrics
        ([fracBuy].map (fun r => { r with fractional_multiplier := 2 }))
      = PortfolioCRUD.get_ticker_analysis_metrics [fracBuy] ∧
    (PortfolioCRUD.get_ticker_analysis_metrics
        ([fracBuy] ++ [sampleTx 5 .DIVIDEND 3 1])).total_bought
      = (PortfolioCRUD.get_ticker_analysis_metrics [fracBuy]).total_bought ∧
    (PortfolioCRUD.get_ticker_analysis_metrics
        ([fracBuy] ++ [sampleTx 5 .DIVIDEND 3 1])).total_sold
      = (PortfolioCRUD.get_ticker_analysis_metrics [fracBuy]).total_sold ∧
    (PortfolioCRUD.get_ticker_analysis_metrics
        ([fracBuy] ++ [sampleTx 5 .DIVIDEND 3 1])).net_quantity
      = (PortfolioCRUD.get_ticker_analysis_metrics [fracBuy]).net_quantity ∧
    (PortfolioCRUD.get_ticker_analysis_metrics [fracBuy]).net_quantity = 10 ∧
    (engineSnapshot [fracBuy]).current_quantity = 1 ∧
    (PortfolioCRUD.get_ticker_analysis_metrics [fracBuy]).net_quantity
      ≠ (engineSnapshot [fracBuy]).current_quantity :=
  ticker_analysis_raw_quantities [fracBuy] (fun _ => 2)
    (sampleTx 5 .DIVIDEND 3 1) (Or.inl rfl)

/-- C10: in `search_transactions` a `min_quantity` or `max_quantity` bound
equal to zero is treated as absent (the search result is identical to the
one with no bound), and a present non-zero bound is compared against the
absolute value of the stored quantity: with only quantity bounds set, a row
is returned exactly when `q ≤ ABS(quantity)` for a supplied non-zero
minimum `q` and `ABS(quantity) ≤ q` for a supplied non-zero maximum `q`. -/
theorem search_transactions_quantity_bounds (rows : List TransactionRow)
    (f : PortfolioCRUD.SearchFilters) (mn mx : Option Dec) :
    PortfolioCRUD.search_transactions { f with min_quantity := some 0 } rows
      = PortfolioCRUD.search_transactions { f with min_quantity := none } rows ∧
    PortfolioCRUD.search_transactions { f with max_quantity := some 0 } rows
      = PortfolioCRUD.search_transactions { f with max_quantity := none } rows ∧
    ∃ l, PortfolioCRUD.search_transactions
        { ticker := none
          start_date := none
          end_date := none
          transaction_type := none
          min_quantity := mn
          max_quantity := mx } rows = .ok l ∧
      ∀ r, r ∈ l ↔ r ∈ rows ∧
        (∀ q, mn = some q → q ≠ 0 → q ≤ |r.quantity|) ∧
        (∀ q, mx = some q → q ≠ 0 → |r.quantity| ≤ q) := by
  obtain ⟨ft, fs, fe, fty, fmn, fmx⟩ := f
  refine ⟨?_, ?_, ?_⟩
  · cases h : PortfolioCRUD.typeCond? fty with
    | error e => simp [PortfolioCRUD.search_transactions, h]
    | ok tyc =>
      simp only [PortfolioCRUD.search_transactions, h]
      rw [List.filter_congr (fun r _ => ?_)]
      simp [PortfolioCRUD.matchesFilters]
  · cases h : PortfolioCRUD.typeCond? fty with
    | error e => simp [PortfolioCRUD.search_transactions, h]
    | ok tyc =>
      simp only [PortfolioCRUD.search_transactions, h]
      rw [List.filter_congr (fun r _ => ?_)]
      simp [PortfolioCRUD.matchesFilters]
  · refine ⟨_, rfl, fun r => ?_⟩
    rw [List.mem_mergeSort, List.mem_filter]
    cases mn with
    | none =>
      cases mx with
      | none => simp [PortfolioCRUD.matchesFilters]
      | some qx =>
        by_cases hqx : qx = 0 <;>
          simp [PortfolioCRUD.matchesFilters, hqx]
    | some qn =>
      cases mx with
      | none =>
        by_cases hqn : qn = 0 <;>
          simp [PortfolioCRUD.matchesFilters, hqn]
      | some qx =>
        by_cases hqn : qn = 0 <;> by_cases hqx : qx = 0 <;>
          simp [PortfolioCRUD.matchesFilters, hqn, hqx, and_assoc]

/-- A SELL row recorded with a negative quantity, exercising the
`ABS(quantity)` comparison. -/
def negSell : TransactionRow := sampleTx 1 .SELL (-10) 5

/-- Witness for `search_transactions_quantity_bounds`: with a minimum bound
of 5, the row whose stored quantity is −10 is returned, because the bound is
compared against `ABS(quantity) = 10`. -/
theorem search_transactions_quantity_bounds_witness :
    ∃ l, PortfolioCRUD.search_transactions
        { ticker := none
          start_date := none
          end_date := none
          transaction_type := none
          min_quantity := some 5
          max_quantity := none } [negSell] = .ok l ∧ negSell ∈ l := by
  obtain ⟨-, -, l, hok, hmem⟩ :=
    search_transactions_quantity_bounds [negSell]
      { ticker := none
        start_date := none
        end_date := none
        transaction_type := none
        min_quantity := none
        max_quantity := none } (some 5) none
  refine ⟨l, hok, (hmem negSell).2 ⟨by simp, ?_, by simp⟩⟩
  intro q hq hq0
  obtain rfl : (5 : Dec) = q := by injection hq
  norm_num [negSell, sampleTx]

/-- A position held with zero invested capital (one share with zero cost
basis, priced at 10, hence a positive unrealized gain). -/
def freeRidePos : PositionRow :=
  { ticker := "FREE"
    current_quantity := 1
    avg_cost_per_share := some 0
    total_cost_basis := 0
    current_price := some 10
    current_market_value := some 10
    unrealized_gain_loss := some 10
    last_price_update := some 0
    primary_currency := "USD"
    updated_at := 0 }

/-- Counterexample to C3 as stated: a Position Store whose total invested
capital is zero but which holds one winning position yields
`win_rate = 100`, not 0 — "whenever total invested capital is zero …
both percentage metrics are 0" fails. -/
theorem perf_metrics_zero_invested_counterexample :
    ∃ m, PortfolioCRUD.get_performance_metrics [freeRidePos] = .ok m ∧
      m.total_invested = some 0 ∧ m.total_return_percentage = 0 ∧
      m.win_rate = 100 ∧ m.win_rate ≠ 0 := by
  have h : PortfolioCRUD.get_performance_metrics [freeRidePos]
      = .ok { total_positions := 1
              winning_positions := 1
              losing_positions := 0
              total_market_value := some 10
              total_invested := some 0
              total_return_percentage := 0
              win_rate := 100 } := by
    have hfm : ∀ x : Dec, PortfolioCRUD.sqlSum [some x] = some x := by
      intro x
      have hx : List.filterMap id [some x] = [x] := rfl
      simp [PortfolioCRUD.sqlSum, hx]
    simp only [PortfolioCRUD.get_performance_metrics, freeRidePos,
      List.filter_cons, List.map_cons, List.map_nil]
    norm_num [hfm]
  exact ⟨_, h, rfl, rfl, rfl, by norm_num⟩

/-- C3 amended: when no position has `current_quantity > 0` (in particular
when the Position Store is empty) `get_performance_metrics` returns
`total_return_percentage = 0` and `win_rate = 0` without failing;
`total_return_percentage` is 0 whenever total invested capital is zero (or
absent or negative); and `win_rate` is 0 whenever there are no positions —
but zero invested capital alone does not force `win_rate = 0`. -/
theorem perf_metrics_zero_division_amended (ps : List PositionRow) :
    (ps.filter (fun r => decide (0 < r.current_quantity)) = [] →
      PortfolioCRUD.get_performance_metrics ps
        = .ok { total_positions := 0
                winning_positions := 0
                losing_positions := 0
                total_market_value := none
                total_invested := none
                total_return_percentage := 0
                win_rate := 0 }) ∧
    (∀ m, PortfolioCRUD.get_performance_metrics ps = .ok m →
      (∀ v, m.total_invested = some v → v ≤ 0) →
      m.total_return_percentage = 0) ∧
    (∀ m, PortfolioCRUD.get_performance_metrics ps = .ok m →
      m.total_positions = 0 → m.win_rate = 0) := by
  refine ⟨?_, ?_, ?_⟩
  · intro h
    simp [PortfolioCRUD.get_performance_metrics, h, PortfolioCRUD.sqlSum]
  · intro m hm hv
    simp only [PortfolioCRUD.get_performance_metrics] at hm
    split at hm
    · exact absurd hm (by simp)
    · rename_i trp heq
      injection hm with hm
      subst hm
      split at heq
      · rename_i v hveq
        have hv' : v ≤ 0 := hv v hveq
        rw [if_neg (by
          rintro ⟨-, hlt⟩
          exact absurd hlt (not_lt.mpr hv'))] at heq
        injection heq with h
        exact h.symm
      · injection heq with h
        exact h.symm
  · intro m hm h0
    simp only [PortfolioCRUD.get_performance_metrics] at hm
    split at hm
    · exact absurd hm (by simp)
    · injection hm with hm
      subst hm
      have h0' : (ps.filter (fun r => decide (0 < r.current_quantity))).length = 0 :=
        h0
      show (if (ps.filter (fun r => decide (0 < r.current_quantity))).length ≠ 0
            then _ else 0) = 0
      rw [if_neg (by simp [h0'])]

/-- Witness for `perf_metrics_zero_division_amended`: the empty Position
Store yields zero percentages without an error. -/
theorem perf_metrics_zero_division_amended_witness :
    PortfolioCRUD.get_performance_metrics ([] : List PositionRow)
      = .ok { total_positions := 0
              winning_positions := 0
              losing_positions := 0
              total_market_value := none
              total_invested := none
              total_return_percentage := 0
              win_rate := 0 } :=
  (perf_metrics_zero_division_amended []).1 (by simp)

/-- The C7 data invariant on one position row: the derived market fields
match `current_quantity * current_price` and its difference with
`total_cost_basis` whenever a price is present, and are null otherwise. -/
def marketInvariant (r : PositionRow) : Prop :=
  match r.current_price with
  | some p =>
    r.current_market_value = some (r.current_quantity * p) ∧
    r.unrealized_gain_loss = some (r.current_quantity * p - r.total_cost_basis)
  | none =>
    r.current_market_value = none ∧ r.unrealized_gain_loss = none

/-- Modelled from the spec: the position row created the first time a
ticker's recalculation yields a position — the schema-side insert is not
under `src/`; §3 states the market fields "are null until a price has ever
been set". -/
def freshPosition (ticker : String) (s : PositionSnapshot) (cur : String)
    (now : ℕ) : PositionRow :=
  { ticker := ticker
    current_quantity := s.current_quantity
    avg_cost_per_share := s.avg_cost_per_share
    total_cost_basis := s.total_cost_basis
    current_price := none
    current_market_value := none
    unrealized_gain_loss := none
    last_price_update := none
    primary_currency := cur
    updated_at := now }

/-- Modelled from the spec: the upsert the schema-side recalculation performs
on the `positions` table (not under `src/`) — the quantity and cost fields
are replaced by the new snapshot while the derived market fields stay
consistent with the stored price (§3 invariant); a missing row is created
with null market fields. -/
def recalcUpsertPositions (st : PositionsState) (ticker cur : String)
    (s : PositionSnapshot) : PositionsState :=
  if st.positions.any (fun r => r.ticker == ticker) then
    { positions := st.positions.map (fun r =>
        if r.ticker == ticker then
          { r with
            current_quantity := s.current_quantity
            avg_cost_per_share := s.avg_cost_per_share
            total_cost_basis := s.total_cost_basis
            current_market_value :=
              r.current_price.map (fun p => s.current_quantity * p)
            unrealized_gain_loss :=
              r.current_price.map
                (fun p => s.current_quantity * p - s.total_cost_basis)
            updated_at := st.clock }
        else r)
      clock := st.clock + 1 }
  else
    { positions := st.positions ++ [freshPosition ticker s cur st.clock]
      clock := st.clock + 1 }

theorem find_ticker_of_nodup (l : List PositionRow) (t : String)
    (hnodup : (l.map (fun r => r.ticker)).Nodup)
    (r : PositionRow) (hr : r ∈ l) (ht : r.ticker = t) :
    l.find? (fun x => x.ticker == t) = some r := by
  induction l with
  | nil => cases hr
  | cons a l ih =>
    rcases List.mem_cons.mp hr with heq | hmem
    · subst heq
      simp [List.find?_cons, ht]
    · have h : (∀ x ∈ l, ¬ x.ticker = a.ticker) ∧
          (l.map (fun r => r.ticker)).Nodup := by
        simpa using hnodup
      obtain ⟨hna, hnl⟩ := h
      have hat : ¬ (a.ticker == t) = true := by
        intro hb
        exact hna r hmem (by rw [ht, eq_of_beq hb])
      simp only [List.find?_cons, hat]
      exact ih hnl hmem

/-- C7: provided the position invariant holds of every stored row, it still
holds of every row after `update_position_market_data`; when that update
reports success, the updated row stores `current_price` and satisfies both
equalities; the spec-modelled recalculation upsert also preserves the
invariant; and a freshly created position row has null derived fields
(null until a price has ever been set). -/
theorem update_market_data_invariant (st : PositionsState) (u : PositionUpdate)
    (ticker cur : String) (s : PositionSnapshot)
    (hnodup : (st.positions.map (fun r => r.ticker)).Nodup)
    (hinv : ∀ r ∈ st.positions, marketInvariant r) :
    (∀ r ∈ (PositionCRUD.update_position_market_data u st).2.positions,
      marketInvariant r) ∧
    ((PositionCRUD.update_position_market_data u st).1 = true →
      ∃ r ∈ (PositionCRUD.update_position_market_data u st).2.positions,
        r.ticker = upper u.ticker ∧
        r.current_price = some u.current_price ∧
        r.current_market_value = some (r.current_quantity * u.current_price) ∧
        r.unrealized_gain_loss
          = some (r.current_quantity * u.current_price - r.total_cost_basis)) ∧
    (∀ r ∈ (recalcUpsertPositions st ticker cur s).positions,
      marketInvariant r) ∧
    marketInvariant (freshPosition ticker s cur 0) := by
  refine ⟨?_, ?_, ?_, ⟨rfl, rfl⟩⟩
  · intro r' hr'
    simp only [PositionCRUD.update_position_market_data, List.mem_map] at hr'
    obtain ⟨r, hr, hmap⟩ := hr'
    by_cases hb : (r.ticker == upper u.ticker) = true
    · have hfind : PositionCRUD.get_position_by_ticker u.ticker st = some r :=
        find_ticker_of_nodup st.positions (upper u.ticker) hnodup r hr
          (eq_of_beq hb)
      rw [if_pos hb] at hmap
      subst hmap
      show marketInvariant _
      rw [show PositionCRUD.get_position_by_ticker u.ticker st = some r from hfind]
      exact ⟨rfl, rfl⟩
    · rw [if_neg hb] at hmap
      subst hmap
      exact hinv r hr
  · intro hsucc
    have hsucc' : st.positions.any (fun x => x.ticker == upper u.ticker) = true :=
      hsucc
    obtain ⟨r, hr, hb⟩ := List.any_eq_true.mp hsucc'
    have hfind : PositionCRUD.get_position_by_ticker u.ticker st = some r :=
      find_ticker_of_nodup st.positions (upper u.ticker) hnodup r hr
        (eq_of_beq hb)
    have hmem : (if (r.ticker == upper u.ticker) = true then
        { r with
          current_price := some u.current_price
          current_market_value :=
            (PositionCRUD.get_position_by_ticker u.ticker st).map
              (fun p => p.current_quantity * u.current_price)
          unrealized_gain_loss :=
            (PositionCRUD.get_position_by_ticker u.ticker st).map
              (fun p => p.current_quantity * u.current_price - p.total_cost_basis)
          last_price_update := some (u.last_price_update.getD st.clock)
          updated_at := st.clock }
      else r) ∈ (PositionCRUD.update_position_market_data u st).2.positions :=
      List.mem_map_of_mem _ hr
    rw [if_pos hb] at hmem
    refine ⟨_, hmem, eq_of_beq hb, rfl, ?_, ?_⟩
    · show (PositionCRUD.get_position_by_ticker u.ticker st).map
        (fun p => p.current_quantity * u.current_price) = _
      rw [hfind]
      rfl
    · show (PositionCRUD.get_position_by_ticker u.ticker st).map
        (fun p => p.current_quantity * u.current_price - p.total_cost_basis) = _
      rw [hfind]
      rfl
  · intro r' hr'
    simp only [recalcUpsertPositions] at hr'
    split at hr'
    · simp only [List.mem_map] at hr'
      obtain ⟨r, hr, hmap⟩ := hr'
      by_cases hb : (r.ticker == ticker) = true
      · rw [if_pos hb] at hmap
        subst hmap
        cases hp : r.current_price with
        | none => exact ⟨by simp [hp], by simp [hp]⟩
        | some p => exact ⟨by simp [hp], by simp [hp]⟩
      · rw [if_neg hb] at hmap
        subst hmap
        exact hinv r hr
    · rcases List.mem_append.mp hr' with hmem | hmem
      · exact hinv r' hmem
      · rcases List.mem_singleton.mp hmem with rfl
        exact ⟨rfl, rfl⟩

/-- A stored position that has never been priced. -/
def acmePos : PositionRow :=
  { ticker := "ACME"
    current_quantity := 2
    avg_cost_per_share := some 50
    total_cost_basis := 100
    current_price := none
    current_market_value := none
    unrealized_gain_loss := none
    last_price_update := none
    primary_currency := "USD"
    updated_at := 0 }

/-- A store holding only `acmePos`. -/
def acmeState : PositionsState := { positions := [acmePos], clock := 1 }

/-- A market-data update for the `acmePos` ticker (lowercase on purpose:
the CRUD layer uppercases it). -/
def acmeUpdate : PositionUpdate :=
  { ticker := "acme", current_price := 60, last_price_update := none }

/-- A recalculation snapshot used to exercise the upsert path. -/
def snapNew : PositionSnapshot :=
  { current_quantity := 3
    total_cost_basis := 300
    avg_cost_per_share := some 100
    integrity_warning := false }

/-- Witness for `update_market_data_invariant` at the concrete one-row
store. -/
theorem update_market_data_invariant_witness :
    (∀ r ∈ (PositionCRUD.update_position_market_data acmeUpdate acmeState).2.positions,
      marketInvariant r) ∧
    ((PositionCRUD.update_position_market_data acmeUpdate acmeState).1 = true →
      ∃ r ∈ (PositionCRUD.update_position_market_data acmeUpdate acmeState).2.positions,
        r.ticker = upper acmeUpdate.ticker ∧
        r.current_price = some acmeUpdate.current_price ∧
        r.current_market_value
          = some (r.current_quantity * acmeUpdate.current_price) ∧
        r.unrealized_gain_loss
          = some (r.current_quantity * acmeUpdate.current_price
              - r.total_cost_basis)) ∧
    (∀ r ∈ (recalcUpsertPositions acmeState "NEW" "USD" snapNew).positions,
      marketInvariant r) ∧
    marketInvariant (freshPosition "NEW" snapNew "USD" 0) :=
  update_market_data_invariant acmeState acmeUpdate "NEW" "USD" snapNew
    (by simp [acmeState, acmePos])
    (by
      intro r hr
      rcases List.mem_singleton.mp hr with rfl
      exact ⟨rfl, rfl⟩)

/-- The per-row contract of the dynamic `UPDATE`: supplied fields take the
supplied value (uppercased where the source uppercases), unsupplied fields
keep their previous value, and only `updated_at` changes besides. -/
def txUpdateContract (u : TransactionUpdate) (now : ℕ)
    (r' r : TransactionRow) : Prop :=
  r'.id = r.id ∧
  (u.ticker = none → r'.ticker = r.ticker) ∧
  (∀ s, u.ticker = some s → r'.ticker = upper s) ∧
  (u.transaction_type = none → r'.transaction_type = r.transaction_type) ∧
  (u.quantity = none → r'.quantity = r.quantity) ∧
  (∀ q, u.quantity = some q → r'.quantity = q) ∧
  (u.cost_per_share = none → r'.cost_per_share = r.cost_per_share) ∧
  (∀ q, u.cost_per_share = some q → r'.cost_per_share = q) ∧
  (u.currency = none → r'.currency = r.currency) ∧
  (∀ s, u.currency = some s → r'.currency = upper s) ∧
  (u.transaction_date = none → r'.transaction_date = r.transaction_date) ∧
  (∀ d, u.transaction_date = some d → r'.transaction_date = d) ∧
  (u.commission = none → r'.commission = r.commission) ∧
  (∀ q, u.commission = some q → r'.commission = some q) ∧
  (u.commission_currency = none →
    r'.commission_currency = r.commission_currency) ∧
  (∀ s, u.commission_currency = some s →
    r'.commission_currency = some (upper s)) ∧
  (u.drip_confirmed = none → r'.drip_confirmed = r.drip_confirmed) ∧
  (∀ v, u.drip_confirmed = some v → r'.drip_confirmed = v) ∧
  (u.is_fractional = none → r'.is_fractional = r.is_fractional) ∧
  (∀ v, u.is_fractional = some v → r'.is_fractional = v) ∧
  (u.fractional_multiplier = none →
    r'.fractional_multiplier = r.fractional_multiplier) ∧
  (∀ q, u.fractional_multiplier = some q → r'.fractional_multiplier = q) ∧
  (u.notes = none → r'.notes = r.notes) ∧
  (∀ s, u.notes = some s → r'.notes = some s) ∧
  r'.created_at = r.created_at ∧
  (TransactionCRUD.TransactionUpdate.anySupplied u = true → r'.updated_at = now)

theorem applyTxUpdate_contract (u : TransactionUpdate) (ty : Option TxType)
    (now : ℕ) (r : TransactionRow)
    (hty : u.transaction_type = none → ty = none) :
    txUpdateContract u now (TransactionCRUD.applyTxUpdate u ty now r) r := by
  refine ⟨rfl, ?_, ?_, ?_, ?_, ?_, ?_, ?_, ?_, ?_, ?_, ?_, ?_, ?_, ?_, ?_,
    ?_, ?_, ?_, ?_, ?_, ?_, ?_, ?_, rfl, fun _ => rfl⟩ <;>
    first
    | (intro h
       rw [hty h]
       simp [TransactionCRUD.applyTxUpdate])
    | (intro h
       simp [TransactionCRUD.applyTxUpdate, h])
    | (intro x h
       simp [TransactionCRUD.applyTxUpdate, h])

theorem runUpdate_ok (tid : ℕ) (u : TransactionUpdate) (ty : Option TxType)
    (st : LedgerState) (b : Bool) (st' : LedgerState)
    (h : TransactionCRUD.update_transaction.runUpdate tid u ty st
      = .ok (b, st')) :
    st'.transactions = st.transactions.map (fun r =>
      if r.id = tid then TransactionCRUD.applyTxUpdate u ty st.clock r else r) := by
  unfold TransactionCRUD.update_transaction.runUpdate at h
  split at h
  · exact absurd h (by simp)
  · split at h
    · exact absurd h (by simp)
    · injection h with h'
      injection h' with hb hst
      rw [← hst]

/-- C5: a successful `update_transaction` leaves every row with a different
id untouched, and rewrites the rows with the matching id so that each
supplied field takes the supplied value and every unsupplied field keeps its
previous value (only `updated_at` changes besides). -/
theorem update_transaction_frame (st : LedgerState) (tid : ℕ)
    (u : TransactionUpdate) (b : Bool) (st' : LedgerState)
    (h : TransactionCRUD.update_transaction tid u st = .ok (b, st')) :
    (∀ r ∈ st.transactions, r.id ≠ tid → r ∈ st'.transactions) ∧
    (∀ r ∈ st.transactions, r.id = tid →
      ∃ r' ∈ st'.transactions, txUpdateContract u st.clock r' r) := by
  unfold TransactionCRUD.update_transaction at h
  split at h
  · rename_i hns
    injection h with h'
    injection h' with hb hst
    subst hst
    have hnone : u.ticker = none ∧ u.transaction_type = none ∧
        u.quantity = none ∧ u.cost_per_share = none ∧ u.currency = none ∧
        u.transaction_date = none ∧ u.commission = none ∧
        u.commission_currency = none ∧ u.drip_confirmed = none ∧
        u.is_fractional = none ∧ u.fractional_multiplier = none ∧
        u.notes = none := by
      simpa [TransactionCRUD.TransactionUpdate.anySupplied, and_assoc]
        using hns
    obtain ⟨h1, h2, h3, h4, h5, h6, h7, h8, h9, h10, h11, h12⟩ := hnone
    refine ⟨fun r hr _ => hr, fun r hr hid => ⟨r, hr, rfl, ?_⟩⟩
    refine ⟨fun _ => rfl, ?_, fun _ => rfl, fun _ => rfl, ?_, fun _ => rfl,
      ?_, fun _ => rfl, ?_, fun _ => rfl, ?_, fun _ => rfl, ?_, fun _ => rfl,
      ?_, fun _ => rfl, ?_, fun _ => rfl, ?_, fun _ => rfl, ?_, fun _ => rfl,
      ?_, rfl, fun hsup => absurd hsup hns⟩ <;>
      (intro x hx; simp_all)
  · have hmain : ∀ ty, (u.transaction_type = none → ty = none) →
        TransactionCRUD.update_transaction.runUpdate tid u ty st
          = .ok (b, st') →
        (∀ r ∈ st.transactions, r.id ≠ tid → r ∈ st'.transactions) ∧
        (∀ r ∈ st.transactions, r.id = tid →
          ∃ r' ∈ st'.transactions, txUpdateContract u st.clock r' r) := by
      intro ty hty hrun
      have heq := runUpdate_ok tid u ty st b st' hrun
      constructor
      · intro r hr hid
        rw [heq]
        exact List.mem_map.mpr ⟨r, hr, by simp [hid]⟩
      · intro r hr hid
        refine ⟨TransactionCRUD.applyTxUpdate u ty st.clock r, ?_,
          applyTxUpdate_contract u ty st.clock r hty⟩
        rw [heq]
        exact List.mem_map.mpr ⟨r, hr, by simp [hid]⟩
    split at h
    · rename_i s hs
      split at h
      · exact absurd h (by simp)
      · rename_i ty hcast
        exact hmain (some ty) (fun hn => absurd hn (by simp [hs])) h
    · rename_i hs
      exact hmain none (fun _ => rfl) h

/-- A two-row ledger used for concrete checks. -/
def ledgerTwo : LedgerState :=
  { transactions := [sampleTx 0 .BUY 5 10, sampleTx 1 .BUY 3 20]
    nextId := 2
    clock := 7 }

/-- A partial update supplying only `quantity`. -/
def updQty : TransactionUpdate := { quantity := some 7 }

/-- Witness for `update_transaction_frame`: updating only the quantity of
row 0 leaves row 1 in place and row 0 keeps every unsupplied field. -/
theorem update_transaction_frame_witness :
    ∃ b st', TransactionCRUD.update_transaction 0 updQty ledgerTwo
        = .ok (b, st') ∧
      (∀ r ∈ ledgerTwo.transactions, r.id ≠ 0 → r ∈ st'.transactions) ∧
      (∀ r ∈ ledgerTwo.transactions, r.id = 0 →
        ∃ r' ∈ st'.transactions, txUpdateContract updQty ledgerTwo.clock r' r) := by
  refine ⟨_, _, rfl, update_transaction_frame ledgerTwo 0 updQty _ _ rfl⟩

/-- A create request carrying a negative quantity (valid in every other
respect). -/
def negQtyCreate : TransactionCreate :=
  { ticker := "ACME"
    transaction_type := "BUY"
    quantity := -5
    cost_per_share := 10
    currency := "USD"
    transaction_date := ⟨2024, 1, 2⟩ }

/-- The empty ledger. -/
def emptyLedger : LedgerState := { transactions := [], nextId := 0, clock := 0 }

/-- Counterexample to C6 as stated: `create_transaction` accepts a request
whose quantity is −5 and stores the row with that negative quantity — no
layer validates the sign. -/
theorem create_negative_quantity_counterexample :
    ∃ st', TransactionCRUD.create_transaction negQtyCreate emptyLedger
        = .ok (0, st') ∧
      ∃ r ∈ st'.transactions, r.quantity = -5 ∧ r.quantity < 0 := by
  refine ⟨_, rfl, ?_⟩
  refine ⟨_, List.mem_singleton_self _, rfl, by norm_num [negQtyCreate]⟩

/-- C6 amended: the stored quantity is exactly the supplied quantity —
`create_transaction` performs no sign normalisation or validation on it (the
non-negativity of stored quantities is a convention of the callers, enforced
only by the CSV importer via `abs()`, not an invariant of the store layer). -/
theorem create_transaction_stores_quantity_verbatim (t : TransactionCreate)
    (st : LedgerState) (tid : ℕ) (st' : LedgerState)
    (h : TransactionCRUD.create_transaction t st = .ok (tid, st')) :
    ∃ r, st'.transactions = st.transactions ++ [r] ∧ r.quantity = t.quantity := by
  unfold TransactionCRUD.create_transaction at h
  split at h
  · exact absurd h (by simp)
  · split at h
    · exact absurd h (by simp)
    · split at h
      · exact absurd h (by simp)
      · injection h with h'
        injection h' with htid hst
        exact ⟨_, by rw [← hst], rfl⟩

/-- Witness for `create_transaction_stores_quantity_verbatim` at the
concrete negative-quantity request. -/
theorem create_transaction_stores_quantity_verbatim_witness :
    ∃ st' r, TransactionCRUD.create_transaction negQtyCreate emptyLedger
        = .ok (0, st') ∧
      st'.transactions = emptyLedger.transactions ++ [r] ∧
      r.quantity = -5 := by
  obtain ⟨r, hr, hq⟩ :=
    create_transaction_stores_quantity_verbatim negQtyCreate emptyLedger 0 _ rfl
  exact ⟨_, r, rfl, hr, hq⟩

/-- C4: a create request whose date string does not parse, or whose
transaction type is not a label of the `transaction_type` enum, makes the
operation return a failure response and leaves the transactions table
exactly as it was — no row is inserted. -/
theorem create_transaction_invalid_rejected (st : LedgerState)
    (inp : CreateTransactionInput)
    (h : parseDateYMD inp.transaction_date = none ∨
      TxType.ofString? (upper inp.transaction_type) = none) :
    (create_transaction_flow inp st).1.success = false ∧
    (create_transaction_flow inp st).2 = st := by
  rcases h with h | h
  · simp [create_transaction_flow, h]
  · cases hd : parseDateYMD inp.transaction_date with
    | none => simp [create_transaction_flow, hd]
    | some d =>
      simp only [create_transaction_flow, hd]
      by_cases hl : 20 < inp.ticker.length
      · rw [if_pos hl]
        exact ⟨rfl, rfl⟩
      · rw [if_neg hl]
        simp [TransactionCRUD.create_transaction, h]

/-- A create request with an impossible calendar date. -/
def badDateInput : CreateTransactionInput :=
  { ticker := "ACME"
    transaction_type := "BUY"
    quantity := 1
    cost_per_share := 1
    currency := "USD"
    transaction_date := "2024-13-01" }

/-- Witness for `create_transaction_invalid_rejected`: month 13 does not
parse, the response is a failure and the table is untouched. -/
theorem create_transaction_invalid_rejected_witness :
    (create_transaction_flow badDateInput emptyLedger).1.success = false ∧
    (create_transaction_flow badDateInput emptyLedger).2 = emptyLedger :=
  create_transaction_invalid_rejected emptyLedger badDateInput
    (Or.inl (by decide))

theorem recalcAllRun_all_ok (ok : String → Bool) (l : List String)
    (h : ∀ x ∈ l, ok x = true) : recalcAllRun ok l = (l, .ok true) := by
  induction l with
  | nil => rfl
  | cons a l ih =>
    simp [recalcAllRun, h a (List.mem_cons_self a l),
      ih (fun x hx => h x (List.mem_cons_of_mem a hx))]

theorem recalcAllRun_prefix_ok (ok : String → Bool) (pre rest : List String)
    (h : ∀ p ∈ pre, ok p = true) :
    recalcAllRun ok (pre ++ rest)
      = (pre ++ (recalcAllRun ok rest).1, (recalcAllRun ok rest).2) := by
  induction pre with
  | nil => simp
  | cons a pre ih =>
    simp [recalcAllRun, h a (List.mem_cons_self a pre),
      ih (fun p hp => h p (List.mem_cons_of_mem a hp))]

/-- A ledger holding one AAPL and one MSFT transaction. -/
def ledgerAaplMsft : LedgerState :=
  { transactions := [{ sampleTx 0 .BUY 1 1 with ticker := "AAPL" },
                     { sampleTx 1 .BUY 1 1 with ticker := "MSFT" }]
    nextId := 2
    clock := 2 }

/-- A recalculation oracle on which exactly the AAPL call raises. -/
def failsOnAapl : String → Bool := fun t => t ≠ "AAPL"

/-- Counterexample to C1 as stated: with AAPL's recalculation failing and
MSFT's able to succeed, the batch recalculates nothing — the failure aborts
the remaining tickers — and the operation returns a plain failure response
whose `data` is `none`: no partial-success summary, no count, no failure
list. -/
theorem recalculate_all_aborts_counterexample :
    (recalculate_all_positions_flow failsOnAapl ledgerAaplMsft).1.success
      = false ∧
    (recalculate_all_positions_flow failsOnAapl ledgerAaplMsft).1.data
      = none ∧
    (recalculate_all_positions_flow failsOnAapl ledgerAaplMsft).2 = [] ∧
    failsOnAapl "MSFT" = true ∧
    "MSFT" ∉ (recalculate_all_positions_flow failsOnAapl ledgerAaplMsft).2 := by
  refine ⟨?_, ?_, ?_, by decide, ?_⟩ <;>
    simp [recalculate_all_positions_flow, recalculate_all_positions,
      distinctTickers, ledgerAaplMsft, sampleTx, recalcAllRun, failsOnAapl]

/-- C1 amended: the batch loop recalculates the distinct tickers in order
only up to the first failure — a failing ticker aborts every remaining one —
and the operation then returns a single failure response with no
partial-success summary (`data = none`); only when every ticker succeeds
does it return a success response, again with no per-ticker summary. -/
theorem recalculate_all_aborts_on_failure (ok : String → Bool)
    (st : LedgerState) (pre post : List String) (t : String)
    (hd : distinctTickers st.transactions = pre ++ t :: post)
    (hpre : ∀ p ∈ pre, ok p = true) (ht : ok t = false) :
    recalculate_all_positions ok st
      = (pre, .error ("Failed to recalculate position for " ++ t)) ∧
    (recalculate_all_positions_flow ok st).1.success = false ∧
    (recalculate_all_positions_flow ok st).1.data = none ∧
    (recalculate_all_positions_flow ok st).2 = pre ∧
    (∀ l, (∀ x ∈ l, ok x = true) → recalcAllRun ok l = (l, .ok true)) := by
  have hrun : recalculate_all_positions ok st
      = (pre, .error ("Failed to recalculate position for " ++ t)) := by
    rw [recalculate_all_positions, hd, recalcAllRun_prefix_ok ok pre _ hpre]
    simp [recalcAllRun, ht]
  refine ⟨hrun, ?_, ?_, ?_, recalcAllRun_all_ok ok⟩ <;>
    simp [recalculate_all_positions_flow, hrun]

/-- A recalculation oracle on which exactly the MSFT call raises. -/
def failsOnMsft : String → Bool := fun t => t ≠ "MSFT"

/-- Witness for `recalculate_all_aborts_on_failure`: AAPL is recalculated,
the MSFT failure then aborts the batch with a bare failure response. -/
theorem recalculate_all_aborts_on_failure_witness :
    recalculate_all_positions failsOnMsft ledgerAaplMsft
      = (["AAPL"], .error ("Failed to recalculate position for " ++ "MSFT")) ∧
    (recalculate_all_positions_flow failsOnMsft ledgerAaplMsft).1.success
      = false ∧
    (recalculate_all_positions_flow failsOnMsft ledgerAaplMsft).1.data
      = none ∧
    (recalculate_all_positions_flow failsOnMsft ledgerAaplMsft).2 = ["AAPL"] ∧
    (∀ l, (∀ x ∈ l, failsOnMsft x = true) →
      recalcAllRun failsOnMsft l = (l, .ok true)) :=
  recalculate_all_aborts_on_failure failsOnMsft ledgerAaplMsft ["AAPL"] []
    "MSFT" (by decide) (by decide) (by decide)

/-- C8: every operation of the façade yields a structured
`OperationResponse` — a success flag, a message, and an optional payload —
for every request and every behaviour of the underlying store; in
particular, when every CRUD call raises, the operation still returns a
response (with `success = false`) instead of propagating the fault. -/
theorem operations_return_structured_responses (c : Crud) (req : Request) :
    (∃ b m d, handle c req = ⟨b, m, d⟩) ∧
    (crudAllFail c → (handle c req).success = false) := by
  refine ⟨⟨(handle c req).success, (handle c req).message,
    (handle c req).data, rfl⟩, ?_⟩
  intro hfail
  obtain ⟨h1, h2, h3, h4, h5, h6, h7, h8, h9, h10, h11, h12, h13, h14⟩ := hfail
  cases req with
  | createTransaction inp =>
    simp only [handle, Ops.create_transaction]
    split
    · rfl
    · split
      · rfl
      · obtain ⟨e, he⟩ := h1 _
        rw [he]
  | getTransaction tid =>
    obtain ⟨e, he⟩ := h2 tid
    simp only [handle, Ops.get_transaction]
    rw [he]
  | updateTransaction inp =>
    simp only [handle, Ops.update_transaction]
    split
    · rfl
    · obtain ⟨e, he⟩ := h3 inp.transaction_id _
      rw [he]
  | deleteTransaction tid =>
    obtain ⟨e, he⟩ := h4 tid
    simp only [handle, Ops.delete_transaction]
    rw [he]
  | getTransactionsByTicker t =>
    obtain ⟨e, he⟩ := h5 t
    simp only [handle, Ops.get_transactions_by_ticker]
    rw [he]
  | getAllPositions =>
    obtain ⟨e, he⟩ := h6
    simp only [handle, Ops.get_all_positions]
    rw [he]
  | getPositionByTicker t =>
    obtain ⟨e, he⟩ := h7 t
    simp only [handle, Ops.get_position_by_ticker]
    rw [he]
  | updateMarketData inp =>
    simp only [handle, Ops.update_market_data]
    split
    · rfl
    · obtain ⟨e, he⟩ := h8 _
      rw [he]
  | getPortfolioSummary =>
    obtain ⟨e, he⟩ := h9
    simp only [handle, Ops.get_portfolio_summary]
    rw [he]
  | getTickerAnalysis t =>
    obtain ⟨e, he⟩ := h10 t
    simp only [handle, Ops.get_ticker_analysis]
    rw [he]
  | searchTransactions inp =>
    simp only [handle, Ops.search_transactions]
    split
    · rfl
    · rfl
    · obtain ⟨e, he⟩ := h11 _
      rw [he]
  | getPerformanceMetrics =>
    obtain ⟨e, he⟩ := h12
    simp only [handle, Ops.get_performance_metrics]
    rw [he]
  | recalculatePosition t =>
    obtain ⟨e, he⟩ := h13 t
    simp only [handle, Ops.recalculate_position]
    rw [he]
  | recalculateAllPositions =>
    obtain ⟨e, he⟩ := h14
    simp only [handle, Ops.recalculate_all_positions]
    rw [he]

/-- A CRUD layer every call of which raises. -/
def boomCrud : Crud :=
  { createTx := fun _ => .error "boom"
    getTxById := fun _ => .error "boom"
    updateTx := fun _ _ => .error "boom"
    deleteTx := fun _ => .error "boom"
    txsByTicker := fun _ => .error "boom"
    allPositions := .error "boom"
    positionByTicker := fun _ => .error "boom"
    updateMarketData := fun _ => .error "boom"
    portfolioSummary := .error "boom"
    tickerAnalysis := fun _ => .error "boom"
    searchTxs := fun _ => .error "boom"
    performanceMetrics := .error "boom"
    recalcPosition := fun _ => .error "boom"
    recalcAll := .error "boom" }

/-- Witness for `operations_return_structured_responses`: against the
always-raising CRUD layer, `get_all_positions` still returns a structured
failure response. -/
theorem operations_return_structured_responses_witness :
    (∃ b m d, handle boomCrud .getAllPositions = ⟨b, m, d⟩) ∧
    (handle boomCrud .getAllPositions).success = false := by
  have hfail : crudAllFail boomCrud :=
    ⟨fun _ => ⟨"boom", rfl⟩, fun _ => ⟨"boom", rfl⟩, fun _ _ => ⟨"boom", rfl⟩,
     fun _ => ⟨"boom", rfl⟩, fun _ => ⟨"boom", rfl⟩, ⟨"boom", rfl⟩,
     fun _ => ⟨"boom", rfl⟩, fun _ => ⟨"boom", rfl⟩, ⟨"boom", rfl⟩,
     fun _ => ⟨"boom", rfl⟩, fun _ => ⟨"boom", rfl⟩, ⟨"boom", rfl⟩,
     fun _ => ⟨"boom", rfl⟩, ⟨"boom", rfl⟩⟩
  obtain ⟨hstruct, himpl⟩ :=
    operations_return_structured_responses boomCrud .getAllPositions
  exact ⟨hstruct, himpl hfail⟩

end Portfolio
